import Mathlib

/-!
Shallow embedding of the SGCRM / Smartlead → HubSpot webhook integration
(`src/integratiom.js`) and verification of its specification.

Modelling conventions, stated once:

* JavaScript string expressions that may be `undefined`, `null` or `""` are
  modelled as `Option String`, with JS truthiness (`""` is falsy) captured by
  `optTruthy`.  A JS `a || b || c` fallback chain is modelled by `firstTruthy`:
  the code only ever reads such a chain for its truthiness and, when truthy,
  for the first truthy value, so collapsing falsy candidates to `none` is
  observationally faithful.
* A HubSpot contact property map is an insertion-ordered association list
  `Props` from property name to stored value.  The handlers read remote values
  through `props?.name?.value`: `propTruthy ps k` is the truthiness of that
  read, i.e. of the value stored under `k`.
* The remote CRM (an external collaborator per the spec) is modelled as the
  state `Crm`: a list of contacts, newest first, with ascending ids, so that a
  search with filter email-EQ, `limit 1`, sorted by descending `hs_object_id`
  is the first match in the list.  The three outbound calls (search, create,
  update) are recorded in the `calls` trace of each handler run.
* HMAC-SHA256 is computed by the external `crypto` library; it is modelled as
  an explicit function argument `hmac : String → String → String` taking the
  secret key and the serialized payload.  `SgRequest.rawBody` stands for
  `JSON.stringify(req.body)`.
* Wall-clock timestamps in the audit log are not modelled.
-/

/-- Truthiness of a possibly absent JS string: `undefined`, `null` and `""`
are falsy, every other string is truthy. -/
def optTruthy : Option String → Bool
  | none => false
  | some s => s != ""

/-- A JS `a || b || ...` fallback chain over string expressions, evaluated to
its first truthy candidate (`none` when every candidate is falsy). -/
def firstTruthy : List (Option String) → Option String
  | [] => none
  | a :: rest => if optTruthy a then a else firstTruthy rest

/-- A JS `expr || null` for a string expression: `""` becomes `null`. -/
def jsStringOrNull (s : String) : Option String :=
  if s == "" then none else some s

/-- A HubSpot property map: insertion-ordered association list from property
name to value. -/
abbrev Props := List (String × String)

/-- Look up the value stored under key `k`. -/
def getProp (ps : Props) (k : String) : Option String :=
  (ps.find? (fun p => p.fst == k)).map Prod.snd

/-- Truthiness of the remote read `props?.k?.value` performed by the merge
conditions in both webhook handlers. -/
def propTruthy (ps : Props) (k : String) : Bool :=
  optTruthy (getProp ps k)

/-- JS object assignment `obj[k] = v`: overwrite in place if the key exists,
otherwise append (insertion order). -/
def setProp (ps : Props) (k v : String) : Props :=
  if ps.any (fun p => p.fst == k) then
    ps.map (fun p => if p.fst == k then (k, v) else p)
  else
    ps ++ [(k, v)]

/-- Apply a property patch key by key (the CRM-side effect of the
`PATCH /crm/v3/objects/contacts/id` call in `updateHubSpotContact`). -/
def applyPatch (ps patch : Props) : Props :=
  patch.foldl (fun acc kv => setProp acc kv.fst kv.snd) ps

/-- The remote CRM state: contacts as `(id, properties)`, newest first, with
`nextId` larger than every id in the list. -/
structure Crm where
  contacts : List (Nat × Props)
  nextId : Nat
deriving DecidableEq, Repr

/-- The outbound search call of `getOrCreateHubSpotContact`: filter
`email EQ`, `limit 1`, `sorts: -hs_object_id`.  With contacts stored newest
first this is the first match in the list. -/
def searchByEmail (crm : Crm) (email : String) : Option (Nat × Props) :=
  crm.contacts.find? (fun c => getProp c.snd "email" == some email)

/-- The normalized contact data (`contactInfo`) passed to
`getOrCreateHubSpotContact` by both handlers. -/
structure ContactInfo where
  firstName : Option String
  lastName : Option String
  phone : Option String
  company : Option String
deriving DecidableEq, Repr

/-- The property map sent by the create branch of `getOrCreateHubSpotContact`:
email, `source_system: 'SGCRM'` (hard-coded in the function, for both
endpoints), and each truthy field of `contactData` via conditional spread. -/
def createdProps (email : String) (contactData : ContactInfo) : Props :=
  [("email", email), ("source_system", "SGCRM")]
  ++ (if optTruthy contactData.firstName then [("firstname", contactData.firstName.getD "")] else [])
  ++ (if optTruthy contactData.lastName then [("lastname", contactData.lastName.getD "")] else [])
  ++ (if optTruthy contactData.phone then [("phone", contactData.phone.getD "")] else [])
  ++ (if optTruthy contactData.company then [("company", contactData.company.getD "")] else [])

/-- Result of `getOrCreateHubSpotContact`: the `found` flag, the contact id
and the property map returned by the CRM (search hit or created contact). -/
structure ResolvedContact where
  found : Bool
  contactId : Nat
  properties : Props
deriving DecidableEq, Repr

/-- `getOrCreateHubSpotContact`: search by email; on a hit return it, else
create the contact and return the created record.  The CRM echoes the stored
property map of the contact it returns. -/
def getOrCreateHubSpotContact (crm : Crm) (email : String)
    (contactData : ContactInfo) : ResolvedContact × Crm :=
  match searchByEmail crm email with
  | some hit =>
    ({ found := true, contactId := hit.fst, properties := hit.snd }, crm)
  | none =>
    let props := createdProps email contactData
    let cid := crm.nextId
    ({ found := false, contactId := cid, properties := props },
     { contacts := (cid, props) :: crm.contacts, nextId := cid + 1 })

/-- CRM-side effect of `updateHubSpotContact contactId patch`. -/
def updateContactInCrm (crm : Crm) (cid : Nat) (patch : Props) : Crm :=
  { crm with
    contacts := crm.contacts.map
      (fun c => if c.fst == cid then (c.fst, applyPatch c.snd patch) else c) }

/-- The `propertiesToUpdate` object built by both handlers: always
`source_system` with the endpoint label, then each of the four contact fields
iff the intent value is truthy and the remote read `props?.key?.value` is
falsy (fill-gaps merge).  This block is textually identical in the two
handlers up to the label. -/
def buildPatch (label : String) (ci : ContactInfo) (props : Props) : Props :=
  let p : Props := [("source_system", label)]
  let p := if optTruthy ci.firstName && !propTruthy props "firstname"
           then p ++ [("firstname", ci.firstName.getD "")] else p
  let p := if optTruthy ci.lastName && !propTruthy props "lastname"
           then p ++ [("lastname", ci.lastName.getD "")] else p
  let p := if optTruthy ci.phone && !propTruthy props "phone"
           then p ++ [("phone", ci.phone.getD "")] else p
  let p := if optTruthy ci.company && !propTruthy props "company"
           then p ++ [("company", ci.company.getD "")] else p
  p

/-- One outbound HubSpot API call, for the per-request call trace. -/
inductive CrmCall where
  | search (email : String)
  | create (props : Props)
  | update (contactId : Nat) (patch : Props)
deriving DecidableEq, Repr

/-- The audit log object assembled by both handlers (wall-clock timestamp not
modelled; `sourceId` is `sgcrm_id` resp. `smartlead_lead_id`). -/
structure AuditRecord where
  sourceId : Option String
  hubspot_contact_id : Nat
  email : String
  action : String
  source_system : String
  properties_updated : List String
deriving DecidableEq, Repr

/-- Outcome of one handler run: HTTP status, the response body fields, the
computed `propertiesToUpdate` (empty on the 400/401 paths, where none is
computed), the outbound call trace, and the CRM state afterwards. -/
structure HandlerResult where
  status : Nat
  success : Bool
  hubspotContactId : Option Nat
  action : Option String
  audit : Option AuditRecord
  patch : Props
  calls : List CrmCall
  crm : Crm
deriving DecidableEq, Repr

/-- The nested `contact` / `data` objects of a SalesGodCRM payload, as far as
the handler reads them. -/
structure SgSub where
  email : Option String
  firstName : Option String
  lastName : Option String
  phoneNumber : Option String
  company : Option String
deriving DecidableEq, Repr

/-- The fields the SalesGodCRM handler destructures from `req.body`
(`event` and `timestamp` are only logged and are omitted). -/
structure SgPayload where
  email : Option String
  phoneNumber : Option String
  firstName : Option String
  lastName : Option String
  company : Option String
  id : Option String
  contact : Option SgSub
  data : Option SgSub
deriving DecidableEq, Repr

/-- `email || contact?.email || data?.email`. -/
def sgContactEmail (b : SgPayload) : Option String :=
  firstTruthy [b.email, b.contact >>= SgSub.email, b.data >>= SgSub.email]

/-- The `contactInfo` object of the SalesGodCRM handler. -/
def sgContactInfo (b : SgPayload) : ContactInfo :=
  { firstName := firstTruthy [b.firstName, b.contact >>= SgSub.firstName, b.data >>= SgSub.firstName]
    lastName := firstTruthy [b.lastName, b.contact >>= SgSub.lastName, b.data >>= SgSub.lastName]
    phone := firstTruthy [b.phoneNumber, b.contact >>= SgSub.phoneNumber, b.data >>= SgSub.phoneNumber]
    company := firstTruthy [b.company, b.contact >>= SgSub.company, b.data >>= SgSub.company] }

/-- `verifyWebhookSignature`: skip (return true) when no secret is configured
(JS-falsy secret); otherwise require a truthy `x-webhook-signature` header
equal to the hex HMAC-SHA256 of the serialized body under the secret. -/
def verifyWebhookSignature (hmac : String → String → String)
    (secret : Option String) (signature : Option String)
    (payload : String) : Bool :=
  if !optTruthy secret then
    true
  else if !optTruthy signature then
    false
  else
    hmac (secret.getD "") payload == signature.getD ""

/-- A 401 (failed signature) handler outcome: no CRM call was made. -/
def unauthorizedResult (crm : Crm) : HandlerResult :=
  { status := 401, success := false, hubspotContactId := none, action := none,
    audit := none, patch := [], calls := [], crm := crm }

/-- A 400 (missing email) handler outcome: no CRM call was made. -/
def missingEmailResult (crm : Crm) : HandlerResult :=
  { status := 400, success := false, hubspotContactId := none, action := none,
    audit := none, patch := [], calls := [], crm := crm }

/-- The `propertiesToUpdate` object of the SalesGodCRM handler against
resolved remote properties `props`: the fill-gaps patch with label `SGCRM`,
plus `salesgodcrm_contact_id` whenever the payload carries a truthy `id`
(this last key is added without consulting the remote state). -/
def sgPatchOf (b : SgPayload) (props : Props) : Props :=
  let basePatch := buildPatch "SGCRM" (sgContactInfo b) props
  if optTruthy b.id
  then basePatch ++ [("salesgodcrm_contact_id", b.id.getD "")]
  else basePatch

/-- Body of the SalesGodCRM handler after the signature gate: extract the
email (400 if every candidate is falsy), get-or-create the contact, build
`propertiesToUpdate`, apply it, and assemble audit and response. -/
def sgProcess (b : SgPayload) (crm : Crm) : HandlerResult :=
  match sgContactEmail b with
  | none => missingEmailResult crm
  | some contactEmail =>
    let contactInfo := sgContactInfo b
    let resolved := getOrCreateHubSpotContact crm contactEmail contactInfo
    let hc := resolved.fst
    let crm1 := resolved.snd
    let patch := sgPatchOf b hc.properties
    let crm2 := updateContactInCrm crm1 hc.contactId patch
    { status := 200, success := true,
      hubspotContactId := some hc.contactId,
      action := some (if hc.found then "updated" else "created"),
      audit := some
        { sourceId := b.id, hubspot_contact_id := hc.contactId,
          email := contactEmail,
          action := if hc.found then "updated_existing" else "created_new",
          source_system := "SGCRM",
          properties_updated := patch.map Prod.fst },
      patch := patch,
      calls := [CrmCall.search contactEmail]
               ++ (if hc.found then []
                   else [CrmCall.create (createdProps contactEmail contactInfo)])
               ++ [CrmCall.update hc.contactId patch],
      crm := crm2 }

/-- An inbound request to the SalesGodCRM endpoint: the
`x-webhook-signature` header, the parsed body, and its serialization
`JSON.stringify(req.body)` used by the HMAC check. -/
structure SgRequest where
  signature : Option String
  body : SgPayload
  rawBody : String
deriving DecidableEq, Repr

/-- `POST /webhook/salesgodscrm`. -/
def handleSalesgodscrm (hmac : String → String → String)
    (secret : Option String) (req : SgRequest) (crm : Crm) : HandlerResult :=
  if verifyWebhookSignature hmac secret req.signature req.rawBody then
    sgProcess req.body crm
  else
    unauthorizedResult crm

/-- The fields the Smartlead handler destructures from `req.body`
(fields that are only logged are omitted). -/
structure SlPayload where
  to_email : Option String
  to_name : Option String
  sl_lead_email : Option String
  campaign_name : Option String
  event_type : Option String
  sl_email_lead_id : Option String
deriving DecidableEq, Repr

/-- `to_email || sl_lead_email`. -/
def slContactEmail (b : SlPayload) : Option String :=
  firstTruthy [b.to_email, b.sl_lead_email]

/-- JS `String.prototype.split(' ')` on the character list: split at every
space, keeping empty chunks (`"".split` gives one empty chunk, a leading or
trailing space gives an empty first or last chunk). -/
def jsSplitChars : List Char → List (List Char)
  | [] => [[]]
  | c :: rest =>
    let groups := jsSplitChars rest
    if c = ' ' then [] :: groups
    else
      match groups with
      | g :: gs => (c :: g) :: gs
      | [] => [[c]]

/-- JS `s.split(' ')`. -/
def jsSplitSpace (s : String) : List String :=
  (jsSplitChars s.data).map (fun cs => String.mk cs)

/-- JS `parts.join(' ')`. -/
def jsJoinSpace : List String → String
  | [] => ""
  | [x] => x
  | x :: rest => x ++ " " ++ jsJoinSpace rest

/-- The Smartlead full-name split:
`nameParts = to_name ? to_name.split(' ') : []`, then
`firstName = nameParts[0] || null` and
`lastName = nameParts.slice(1).join(' ') || null`. -/
def splitToName (to_name : Option String) : Option String × Option String :=
  let nameParts : List String :=
    match to_name with
    | some s => if s == "" then [] else jsSplitSpace s
    | none => []
  (match nameParts.head? with
   | some t => jsStringOrNull t
   | none => none,
   jsStringOrNull (jsJoinSpace (nameParts.drop 1)))

/-- The `contactInfo` object of the Smartlead handler: the name split, and
`phone` and `company` hard-coded to `null`. -/
def slContactInfo (b : SlPayload) : ContactInfo :=
  { firstName := (splitToName b.to_name).fst
    lastName := (splitToName b.to_name).snd
    phone := none
    company := none }

/-- The `propertiesToUpdate` object of the Smartlead handler: the fill-gaps
patch with label `Smartlead Email Campaign`; no custom foreign-id property is
added (the code only notes one in a comment). -/
def slPatchOf (b : SlPayload) (props : Props) : Props :=
  buildPatch "Smartlead Email Campaign" (slContactInfo b) props

/-- Body of the Smartlead handler after the signature gate: like the
SalesGodCRM one, with audit `source_system` label `Smartlead`. -/
def slProcess (b : SlPayload) (crm : Crm) : HandlerResult :=
  match slContactEmail b with
  | none => missingEmailResult crm
  | some contactEmail =>
    let contactInfo := slContactInfo b
    let resolved := getOrCreateHubSpotContact crm contactEmail contactInfo
    let hc := resolved.fst
    let crm1 := resolved.snd
    let patch := slPatchOf b hc.properties
    let crm2 := updateContactInCrm crm1 hc.contactId patch
    { status := 200, success := true,
      hubspotContactId := some hc.contactId,
      action := some (if hc.found then "updated" else "created"),
      audit := some
        { sourceId := b.sl_email_lead_id, hubspot_contact_id := hc.contactId,
          email := contactEmail,
          action := if hc.found then "updated_existing" else "created_new",
          source_system := "Smartlead",
          properties_updated := patch.map Prod.fst },
      patch := patch,
      calls := [CrmCall.search contactEmail]
               ++ (if hc.found then []
                   else [CrmCall.create (createdProps contactEmail contactInfo)])
               ++ [CrmCall.update hc.contactId patch],
      crm := crm2 }

/-- An inbound request to the Smartlead endpoint. -/
structure SlRequest where
  signature : Option String
  body : SlPayload
  rawBody : String
deriving DecidableEq, Repr

/-- `POST /webhook/smartlead`. -/
def handleSmartlead (hmac : String → String → String)
    (secret : Option String) (req : SlRequest) (crm : Crm) : HandlerResult :=
  if verifyWebhookSignature hmac secret req.signature req.rawBody then
    slProcess req.body crm
  else
    unauthorizedResult crm

/-! ### Association-list and patch lemmas -/

theorem getProp_append_left (ps qs : Props) (k : String)
    (h : ∀ p ∈ ps, (p.fst == k) = false) :
    getProp (ps ++ qs) k = getProp qs k := by
  induction ps with
  | nil => rfl
  | cons a t ih =>
    have ha := h a (List.mem_cons_self a t)
    simp only [List.cons_append, getProp, List.find?, ha]
    exact ih (fun p hp => h p (List.mem_cons_of_mem a hp))

theorem mem_keys_buildPatch (label k : String) (ci : ContactInfo) (props : Props) :
    k ∈ (buildPatch label ci props).map Prod.fst ↔
      k = "source_system" ∨
      (k = "firstname" ∧ (optTruthy ci.firstName && !propTruthy props "firstname") = true) ∨
      (k = "lastname" ∧ (optTruthy ci.lastName && !propTruthy props "lastname") = true) ∨
      (k = "phone" ∧ (optTruthy ci.phone && !propTruthy props "phone") = true) ∨
      (k = "company" ∧ (optTruthy ci.company && !propTruthy props "company") = true) := by
  cases hf : (optTruthy ci.firstName && !propTruthy props "firstname") <;>
  cases hl : (optTruthy ci.lastName && !propTruthy props "lastname") <;>
  cases hp : (optTruthy ci.phone && !propTruthy props "phone") <;>
  cases hc : (optTruthy ci.company && !propTruthy props "company") <;>
    simp [buildPatch, hf, hl, hp, hc]

theorem getProp_buildPatch_append (label : String) (ci : ContactInfo)
    (props extra : Props) :
    getProp (buildPatch label ci props ++ extra) "source_system" = some label := by
  unfold buildPatch
  split_ifs <;> simp [getProp, List.find?]

theorem getProp_buildPatch (label : String) (ci : ContactInfo) (props : Props) :
    getProp (buildPatch label ci props) "source_system" = some label := by
  have h := getProp_buildPatch_append label ci props []
  simpa using h

theorem buildPatch_ne_nil (label : String) (ci : ContactInfo) (props : Props) :
    buildPatch label ci props ≠ [] := by
  intro h
  have hs := getProp_buildPatch label ci props
  rw [h] at hs
  simp [getProp] at hs

theorem optTruthy_some (s : String) : optTruthy (some s) = (s != "") := rfl

theorem optTruthy_none : optTruthy none = false := rfl

theorem getProp_createdProps_email (email : String) (ci : ContactInfo) :
    getProp (createdProps email ci) "email" = some email := by
  simp [createdProps, getProp, List.find?]

theorem propTruthy_createdProps_firstname (email : String) (ci : ContactInfo)
    (h : optTruthy ci.firstName = true) :
    propTruthy (createdProps email ci) "firstname" = true := by
  cases hf : ci.firstName with
  | none => rw [hf] at h; simp [optTruthy] at h
  | some s =>
    rw [hf] at h
    rw [optTruthy_some] at h
    simp [createdProps, propTruthy, getProp, List.find?, hf, optTruthy_some, h]

theorem propTruthy_createdProps_lastname (email : String) (ci : ContactInfo)
    (h : optTruthy ci.lastName = true) :
    propTruthy (createdProps email ci) "lastname" = true := by
  cases hs : ci.lastName with
  | none => rw [hs] at h; simp [optTruthy] at h
  | some s =>
    rw [hs] at h
    rw [optTruthy_some] at h
    cases h1 : optTruthy ci.firstName <;>
      simp [createdProps, propTruthy, getProp, List.find?, h1, hs, optTruthy_some, h]

theorem propTruthy_createdProps_phone (email : String) (ci : ContactInfo)
    (h : optTruthy ci.phone = true) :
    propTruthy (createdProps email ci) "phone" = true := by
  cases hs : ci.phone with
  | none => rw [hs] at h; simp [optTruthy] at h
  | some s =>
    rw [hs] at h
    rw [optTruthy_some] at h
    cases h1 : optTruthy ci.firstName <;> cases h2 : optTruthy ci.lastName <;>
      simp [createdProps, propTruthy, getProp, List.find?, h1, h2, hs, optTruthy_some, h]

theorem propTruthy_createdProps_company (email : String) (ci : ContactInfo)
    (h : optTruthy ci.company = true) :
    propTruthy (createdProps email ci) "company" = true := by
  cases hs : ci.company with
  | none => rw [hs] at h; simp [optTruthy] at h
  | some s =>
    rw [hs] at h
    rw [optTruthy_some] at h
    cases h1 : optTruthy ci.firstName <;> cases h2 : optTruthy ci.lastName <;>
    cases h3 : optTruthy ci.phone <;>
      simp [createdProps, propTruthy, getProp, List.find?, h1, h2, h3, hs, optTruthy_some, h]

theorem buildPatch_all_filled (label : String) (ci : ContactInfo) (props : Props)
    (h1 : optTruthy ci.firstName = true → propTruthy props "firstname" = true)
    (h2 : optTruthy ci.lastName = true → propTruthy props "lastname" = true)
    (h3 : optTruthy ci.phone = true → propTruthy props "phone" = true)
    (h4 : optTruthy ci.company = true → propTruthy props "company" = true) :
    buildPatch label ci props = [("source_system", label)] := by
  have e1 : (optTruthy ci.firstName && !propTruthy props "firstname") = false := by
    cases hf : optTruthy ci.firstName
    · simp
    · simp [h1 hf]
  have e2 : (optTruthy ci.lastName && !propTruthy props "lastname") = false := by
    cases hf : optTruthy ci.lastName
    · simp
    · simp [h2 hf]
  have e3 : (optTruthy ci.phone && !propTruthy props "phone") = false := by
    cases hf : optTruthy ci.phone
    · simp
    · simp [h3 hf]
  have e4 : (optTruthy ci.company && !propTruthy props "company") = false := by
    cases hf : optTruthy ci.company
    · simp
    · simp [h4 hf]
  simp [buildPatch, e1, e2, e3, e4]

theorem getProp_map_overwrite_ne (ps : Props) (k q v : String)
    (h : (q == k) = false) :
    getProp (ps.map (fun p => if p.fst == q then (q, v) else p)) k
      = getProp ps k := by
  induction ps with
  | nil => rfl
  | cons a t ih =>
    by_cases ha : (a.fst == q) = true
    · have haq : a.fst = q := by simpa using ha
      have hak : (a.fst == k) = false := by rw [haq]; exact h
      simp [getProp, List.find?, ha, hak, h] at ih ⊢
      exact ih
    · have ha' : (a.fst == q) = false := by simpa using ha
      by_cases hak : (a.fst == k) = true
      · simp [getProp, List.find?, ha', hak]
      · have hak' : (a.fst == k) = false := by simpa using hak
        simp [getProp, List.find?, ha', hak'] at ih ⊢
        exact ih

theorem getProp_append_single_ne (ps : Props) (k q v : String)
    (h : (q == k) = false) :
    getProp (ps ++ [(q, v)]) k = getProp ps k := by
  induction ps with
  | nil => simp [getProp, List.find?, h]
  | cons a t ih =>
    by_cases hak : (a.fst == k) = true
    · simp [getProp, List.find?, hak]
    · have hak' : (a.fst == k) = false := by simpa using hak
      simp [getProp, List.find?, hak'] at ih ⊢
      exact ih

theorem getProp_setProp_ne (ps : Props) (k q v : String)
    (h : (q == k) = false) :
    getProp (setProp ps q v) k = getProp ps k := by
  unfold setProp
  split_ifs
  · exact getProp_map_overwrite_ne ps k q v h
  · exact getProp_append_single_ne ps k q v h

theorem getProp_applyPatch_ne (patch : Props) (ps : Props) (k : String)
    (h : ∀ p ∈ patch, (p.fst == k) = false) :
    getProp (applyPatch ps patch) k = getProp ps k := by
  induction patch generalizing ps with
  | nil => rfl
  | cons a t ih =>
    have hstep : applyPatch ps (a :: t) = applyPatch (setProp ps a.fst a.snd) t := rfl
    rw [hstep, ih (setProp ps a.fst a.snd) (fun p hp => h p (List.mem_cons_of_mem a hp)),
        getProp_setProp_ne ps k a.fst a.snd (h a (List.mem_cons_self a t))]

/-! ### What each endpoint computes on the found and create paths -/

/-- The patch a SalesGodCRM run sends when the contact was just created:
every truthy intent field was already written at creation, so the fill-gaps
merge contributes nothing beyond `source_system` (and the foreign id, which
is added without consulting remote state). -/
def sgCreatePatch (b : SgPayload) : Props :=
  if optTruthy b.id
  then [("source_system", "SGCRM"), ("salesgodcrm_contact_id", b.id.getD "")]
  else [("source_system", "SGCRM")]

theorem sgPatchOf_createdProps (b : SgPayload) (em : String) :
    sgPatchOf b (createdProps em (sgContactInfo b)) = sgCreatePatch b := by
  unfold sgPatchOf sgCreatePatch
  rw [buildPatch_all_filled "SGCRM" (sgContactInfo b)
        (createdProps em (sgContactInfo b))
        (propTruthy_createdProps_firstname em (sgContactInfo b))
        (propTruthy_createdProps_lastname em (sgContactInfo b))
        (propTruthy_createdProps_phone em (sgContactInfo b))
        (propTruthy_createdProps_company em (sgContactInfo b))]
  cases optTruthy b.id <;> simp

theorem slPatchOf_createdProps (b : SlPayload) (em : String) :
    slPatchOf b (createdProps em (slContactInfo b)) =
      [("source_system", "Smartlead Email Campaign")] := by
  unfold slPatchOf
  exact buildPatch_all_filled "Smartlead Email Campaign" (slContactInfo b)
    (createdProps em (slContactInfo b))
    (propTruthy_createdProps_firstname em (slContactInfo b))
    (propTruthy_createdProps_lastname em (slContactInfo b))
    (propTruthy_createdProps_phone em (slContactInfo b))
    (propTruthy_createdProps_company em (slContactInfo b))

theorem sgProcess_found (b : SgPayload) (crm : Crm) (em : String)
    (hit : Nat × Props)
    (hEmail : sgContactEmail b = some em)
    (hSearch : searchByEmail crm em = some hit) :
    sgProcess b crm =
      { status := 200, success := true,
        hubspotContactId := some hit.fst,
        action := some "updated",
        audit := some
          { sourceId := b.id, hubspot_contact_id := hit.fst, email := em,
            action := "updated_existing", source_system := "SGCRM",
            properties_updated := (sgPatchOf b hit.snd).map Prod.fst },
        patch := sgPatchOf b hit.snd,
        calls := [CrmCall.search em, CrmCall.update hit.fst (sgPatchOf b hit.snd)],
        crm := updateContactInCrm crm hit.fst (sgPatchOf b hit.snd) } := by
  unfold sgProcess
  rw [hEmail]
  simp [getOrCreateHubSpotContact, hSearch]

theorem sgProcess_create (b : SgPayload) (crm : Crm) (em : String)
    (hEmail : sgContactEmail b = some em)
    (hSearch : searchByEmail crm em = none) :
    sgProcess b crm =
      { status := 200, success := true,
        hubspotContactId := some crm.nextId,
        action := some "created",
        audit := some
          { sourceId := b.id, hubspot_contact_id := crm.nextId, email := em,
            action := "created_new", source_system := "SGCRM",
            properties_updated := (sgCreatePatch b).map Prod.fst },
        patch := sgCreatePatch b,
        calls := [CrmCall.search em,
                  CrmCall.create (createdProps em (sgContactInfo b)),
                  CrmCall.update crm.nextId (sgCreatePatch b)],
        crm := updateContactInCrm
                 { contacts := (crm.nextId, createdProps em (sgContactInfo b)) :: crm.contacts,
                   nextId := crm.nextId + 1 }
                 crm.nextId (sgCreatePatch b) } := by
  unfold sgProcess
  rw [hEmail]
  simp [getOrCreateHubSpotContact, hSearch, sgPatchOf_createdProps]

theorem slProcess_found (b : SlPayload) (crm : Crm) (em : String)
    (hit : Nat × Props)
    (hEmail : slContactEmail b = some em)
    (hSearch : searchByEmail crm em = some hit) :
    slProcess b crm =
      { status := 200, success := true,
        hubspotContactId := some hit.fst,
        action := some "updated",
        audit := some
          { sourceId := b.sl_email_lead_id, hubspot_contact_id := hit.fst,
            email := em, action := "updated_existing",
            source_system := "Smartlead",
            properties_updated := (slPatchOf b hit.snd).map Prod.fst },
        patch := slPatchOf b hit.snd,
        calls := [CrmCall.search em, CrmCall.update hit.fst (slPatchOf b hit.snd)],
        crm := updateContactInCrm crm hit.fst (slPatchOf b hit.snd) } := by
  unfold slProcess
  rw [hEmail]
  simp [getOrCreateHubSpotContact, hSearch]

theorem slProcess_create (b : SlPayload) (crm : Crm) (em : String)
    (hEmail : slContactEmail b = some em)
    (hSearch : searchByEmail crm em = none) :
    slProcess b crm =
      { status := 200, success := true,
        hubspotContactId := some crm.nextId,
        action := some "created",
        audit := some
          { sourceId := b.sl_email_lead_id, hubspot_contact_id := crm.nextId,
            email := em, action := "created_new",
            source_system := "Smartlead",
            properties_updated := ["source_system"] },
        patch := [("source_system", "Smartlead Email Campaign")],
        calls := [CrmCall.search em,
                  CrmCall.create (createdProps em (slContactInfo b)),
                  CrmCall.update crm.nextId [("source_system", "Smartlead Email Campaign")]],
        crm := updateContactInCrm
                 { contacts := (crm.nextId, createdProps em (slContactInfo b)) :: crm.contacts,
                   nextId := crm.nextId + 1 }
                 crm.nextId [("source_system", "Smartlead Email Campaign")] } := by
  unfold slProcess
  rw [hEmail]
  simp [getOrCreateHubSpotContact, hSearch, slPatchOf_createdProps]

theorem sgProcess_missing (b : SgPayload) (crm : Crm)
    (hEmail : sgContactEmail b = none) :
    sgProcess b crm = missingEmailResult crm := by
  unfold sgProcess
  rw [hEmail]

theorem slProcess_missing (b : SlPayload) (crm : Crm)
    (hEmail : slContactEmail b = none) :
    slProcess b crm = missingEmailResult crm := by
  unfold slProcess
  rw [hEmail]

theorem handleSalesgodscrm_pass (hmac : String → String → String)
    (secret : Option String) (req : SgRequest) (crm : Crm)
    (h : verifyWebhookSignature hmac secret req.signature req.rawBody = true) :
    handleSalesgodscrm hmac secret req crm = sgProcess req.body crm := by
  unfold handleSalesgodscrm
  rw [h]
  simp

theorem handleSalesgodscrm_reject (hmac : String → String → String)
    (secret : Option String) (req : SgRequest) (crm : Crm)
    (h : verifyWebhookSignature hmac secret req.signature req.rawBody = false) :
    handleSalesgodscrm hmac secret req crm = unauthorizedResult crm := by
  unfold handleSalesgodscrm
  rw [h]
  simp

theorem handleSmartlead_pass (hmac : String → String → String)
    (secret : Option String) (req : SlRequest) (crm : Crm)
    (h : verifyWebhookSignature hmac secret req.signature req.rawBody = true) :
    handleSmartlead hmac secret req crm = slProcess req.body crm := by
  unfold handleSmartlead
  rw [h]
  simp

theorem handleSmartlead_reject (hmac : String → String → String)
    (secret : Option String) (req : SlRequest) (crm : Crm)
    (h : verifyWebhookSignature hmac secret req.signature req.rawBody = false) :
    handleSmartlead hmac secret req crm = unauthorizedResult crm := by
  unfold handleSmartlead
  rw [h]
  simp

theorem ne_nil_of_getProp (ps : Props) (k v : String)
    (h : getProp ps k = some v) : ps ≠ [] := by
  intro hnil
  rw [hnil] at h
  simp [getProp] at h

theorem not_mem_patch_of_filled (label : String) (ci : ContactInfo)
    (props : Props) (k : String)
    (hk : k = "firstname" ∨ k = "lastname" ∨ k = "phone" ∨ k = "company")
    (h : propTruthy props k = true) :
    k ∉ (buildPatch label ci props).map Prod.fst := by
  intro hmem
  rw [mem_keys_buildPatch] at hmem
  rcases hk with rfl | rfl | rfl | rfl <;> simp_all

theorem not_mem_sgPatchOf (b : SgPayload) (props : Props) (k : String)
    (hk : k = "firstname" ∨ k = "lastname" ∨ k = "phone" ∨ k = "company")
    (h : propTruthy props k = true) :
    k ∉ (sgPatchOf b props).map Prod.fst := by
  intro hmem
  unfold sgPatchOf at hmem
  cases hid : optTruthy b.id <;>
    rw [hid] at hmem <;>
    simp only [Bool.false_eq_true, if_false, if_true] at hmem
  · exact not_mem_patch_of_filled "SGCRM" (sgContactInfo b) props k hk h hmem
  · rw [List.map_append, List.mem_append] at hmem
    rcases hmem with hmem | hmem
    · exact not_mem_patch_of_filled "SGCRM" (sgContactInfo b) props k hk h hmem
    · rcases hk with rfl | rfl | rfl | rfl <;> simp_all

theorem not_mem_slPatchOf (b : SlPayload) (props : Props) (k : String)
    (hk : k = "firstname" ∨ k = "lastname" ∨ k = "phone" ∨ k = "company")
    (h : propTruthy props k = true) :
    k ∉ (slPatchOf b props).map Prod.fst :=
  not_mem_patch_of_filled "Smartlead Email Campaign" (slContactInfo b) props k hk h

theorem getProp_sgPatchOf (b : SgPayload) (props : Props) :
    getProp (sgPatchOf b props) "source_system" = some "SGCRM" := by
  unfold sgPatchOf
  cases hid : optTruthy b.id <;>
    simp only [Bool.false_eq_true, if_false, if_true]
  · exact getProp_buildPatch "SGCRM" (sgContactInfo b) props
  · exact getProp_buildPatch_append "SGCRM" (sgContactInfo b) props _

theorem getProp_slPatchOf (b : SlPayload) (props : Props) :
    getProp (slPatchOf b props) "source_system"
      = some "Smartlead Email Campaign" :=
  getProp_buildPatch "Smartlead Email Campaign" (slContactInfo b) props

theorem getProp_sgCreatePatch (b : SgPayload) :
    getProp (sgCreatePatch b) "source_system" = some "SGCRM" := by
  unfold sgCreatePatch
  cases optTruthy b.id <;> simp [getProp, List.find?]

theorem sgCreatePatch_keys_ne (b : SgPayload) (k : String)
    (hk : k = "email" ∨ k = "firstname" ∨ k = "lastname" ∨ k = "phone"
          ∨ k = "company") :
    ∀ p ∈ sgCreatePatch b, (p.fst == k) = false := by
  intro p hp
  unfold sgCreatePatch at hp
  cases hid : optTruthy b.id <;> rw [hid] at hp <;>
    simp only [Bool.false_eq_true, if_false, if_true] at hp <;>
    rcases hk with rfl | rfl | rfl | rfl | rfl <;>
    simp_all <;> rcases hp with rfl | rfl <;> simp_all

theorem sgPatchOf_stored (b : SgPayload) (em : String) :
    sgPatchOf b
        (applyPatch (createdProps em (sgContactInfo b)) (sgCreatePatch b))
      = sgCreatePatch b := by
  have hfn : optTruthy (sgContactInfo b).firstName = true →
      propTruthy (applyPatch (createdProps em (sgContactInfo b)) (sgCreatePatch b)) "firstname" = true := by
    intro hf
    unfold propTruthy
    rw [getProp_applyPatch_ne _ _ _ (sgCreatePatch_keys_ne b "firstname" (by tauto))]
    exact propTruthy_createdProps_firstname em (sgContactInfo b) hf
  have hln : optTruthy (sgContactInfo b).lastName = true →
      propTruthy (applyPatch (createdProps em (sgContactInfo b)) (sgCreatePatch b)) "lastname" = true := by
    intro hf
    unfold propTruthy
    rw [getProp_applyPatch_ne _ _ _ (sgCreatePatch_keys_ne b "lastname" (by tauto))]
    exact propTruthy_createdProps_lastname em (sgContactInfo b) hf
  have hph : optTruthy (sgContactInfo b).phone = true →
      propTruthy (applyPatch (createdProps em (sgContactInfo b)) (sgCreatePatch b)) "phone" = true := by
    intro hf
    unfold propTruthy
    rw [getProp_applyPatch_ne _ _ _ (sgCreatePatch_keys_ne b "phone" (by tauto))]
    exact propTruthy_createdProps_phone em (sgContactInfo b) hf
  have hco : optTruthy (sgContactInfo b).company = true →
      propTruthy (applyPatch (createdProps em (sgContactInfo b)) (sgCreatePatch b)) "company" = true := by
    intro hf
    unfold propTruthy
    rw [getProp_applyPatch_ne _ _ _ (sgCreatePatch_keys_ne b "company" (by tauto))]
    exact propTruthy_createdProps_company em (sgContactInfo b) hf
  unfold sgPatchOf
  rw [buildPatch_all_filled "SGCRM" (sgContactInfo b) _ hfn hln hph hco]
  unfold sgCreatePatch
  cases optTruthy b.id <;> simp

theorem getProp_stored_email (b : SgPayload) (em : String) :
    getProp (applyPatch (createdProps em (sgContactInfo b)) (sgCreatePatch b))
        "email" = some em := by
  rw [getProp_applyPatch_ne _ _ _ (sgCreatePatch_keys_ne b "email" (by tauto))]
  exact getProp_createdProps_email em (sgContactInfo b)

theorem searchByEmail_after_create (b : SgPayload) (crm : Crm) (em : String) :
    searchByEmail
        (updateContactInCrm
          { contacts := (crm.nextId, createdProps em (sgContactInfo b)) :: crm.contacts,
            nextId := crm.nextId + 1 }
          crm.nextId (sgCreatePatch b)) em
      = some (crm.nextId,
              applyPatch (createdProps em (sgContactInfo b)) (sgCreatePatch b)) := by
  unfold updateContactInCrm searchByEmail
  simp only [List.map_cons, beq_self_eq_true, if_true, List.find?,
    getProp_stored_email b em, beq_self_eq_true]

/-! ### Concrete inputs used by witnesses and counterexamples -/

/-- A deterministic stand-in for the external HMAC-SHA256 function. -/
def hmacW : String → String → String :=
  fun key payload => String.append (String.append key ":") payload

/-- A constant-digest stand-in (digest is never empty, like a hex digest). -/
def hmacConstW : String → String → String := fun _ _ => "aa"

def crmEmptyW : Crm := { contacts := [], nextId := 0 }

def remotePropsW : Props :=
  [("email", "a@b.com"), ("firstname", "Remote"), ("lastname", "R"),
   ("phone", "1"), ("company", "RC")]

def crmW : Crm := { contacts := [(7, remotePropsW)], nextId := 8 }

def sgBodyW : SgPayload :=
  { email := some "a@b.com", phoneNumber := some "555",
    firstName := some "Jane", lastName := some "Doe",
    company := some "Acme", id := some "sg-1",
    contact := none, data := none }

def sgReqW : SgRequest := { signature := none, body := sgBodyW, rawBody := "{}" }

def slBodyW : SlPayload :=
  { to_email := some "a@b.com", to_name := some "Jane Mary Doe",
    sl_lead_email := none, campaign_name := some "C",
    event_type := some "EMAIL_REPLY", sl_email_lead_id := some "77" }

def slReqW : SlRequest := { signature := none, body := slBodyW, rawBody := "{}" }

def sgBodyNoEmailW : SgPayload :=
  { email := some "", phoneNumber := none, firstName := some "Jane",
    lastName := none, company := none, id := none,
    contact := some { email := none, firstName := none, lastName := none,
                      phoneNumber := none, company := none },
    data := none }

def sgReqNoEmailW : SgRequest :=
  { signature := none, body := sgBodyNoEmailW, rawBody := "{}" }

def slBodyNoEmailW : SlPayload :=
  { to_email := some "", to_name := some "Jane Doe", sl_lead_email := none,
    campaign_name := none, event_type := none, sl_email_lead_id := none }

def slReqNoEmailW : SlRequest :=
  { signature := none, body := slBodyNoEmailW, rawBody := "{}" }

def sgReqBadSigW : SgRequest :=
  { signature := some "bad", body := sgBodyW, rawBody := "{}" }

def slReqBadSigW : SlRequest :=
  { signature := some "bad", body := slBodyW, rawBody := "{}" }

/-! ### Claim C5 -/

/-- C5: on either endpoint, when the signature gate passes but no email
candidate along the endpoint's fallback chain is a non-empty string, the
request fails with HTTP 400 (missing identity) and no CRM call (search,
create or update) is made. -/
theorem c5_missing_identity (hmac : String → String → String)
    (secret : Option String) (sgReq : SgRequest) (slReq : SlRequest)
    (crm crm' : Crm)
    (hGsg : verifyWebhookSignature hmac secret sgReq.signature sgReq.rawBody = true)
    (hGsl : verifyWebhookSignature hmac secret slReq.signature slReq.rawBody = true)
    (hEsg : sgContactEmail sgReq.body = none)
    (hEsl : slContactEmail slReq.body = none) :
    (handleSalesgodscrm hmac secret sgReq crm).status = 400 ∧
    (handleSalesgodscrm hmac secret sgReq crm).calls = [] ∧
    (handleSmartlead hmac secret slReq crm').status = 400 ∧
    (handleSmartlead hmac secret slReq crm').calls = [] := by
  rw [handleSalesgodscrm_pass hmac secret sgReq crm hGsg,
      sgProcess_missing sgReq.body crm hEsg,
      handleSmartlead_pass hmac secret slReq crm' hGsl,
      slProcess_missing slReq.body crm' hEsl]
  exact ⟨rfl, rfl, rfl, rfl⟩

/-- Witness for C5 at concrete inputs: a SalesGodCRM payload whose only email
candidate is the empty string (nested `contact` object without email) and a
Smartlead payload with empty `to_email` and no `sl_lead_email`. -/
theorem c5_missing_identity_witness :
    verifyWebhookSignature hmacW none sgReqNoEmailW.signature sgReqNoEmailW.rawBody = true ∧
    verifyWebhookSignature hmacW none slReqNoEmailW.signature slReqNoEmailW.rawBody = true ∧
    sgContactEmail sgReqNoEmailW.body = none ∧
    slContactEmail slReqNoEmailW.body = none ∧
    ((handleSalesgodscrm hmacW none sgReqNoEmailW crmEmptyW).status = 400 ∧
     (handleSalesgodscrm hmacW none sgReqNoEmailW crmEmptyW).calls = [] ∧
     (handleSmartlead hmacW none slReqNoEmailW crmEmptyW).status = 400 ∧
     (handleSmartlead hmacW none slReqNoEmailW crmEmptyW).calls = []) :=
  ⟨by decide, by decide, by decide, by decide,
   c5_missing_identity hmacW none sgReqNoEmailW slReqNoEmailW crmEmptyW crmEmptyW
     (by decide) (by decide) (by decide) (by decide)⟩

/-! ### Claim C7 -/

/-- C7: when no webhook secret is configured (absent, or the JS-falsy empty
string), the signature gate passes unconditionally — whatever the signature
header holds — and both handlers proceed to normal processing. -/
theorem c7_fail_open (hmac : String → String → String) (sig : Option String)
    (payload : String) (sgReq : SgRequest) (slReq : SlRequest)
    (crm crm' : Crm) :
    verifyWebhookSignature hmac none sig payload = true ∧
    verifyWebhookSignature hmac (some "") sig payload = true ∧
    handleSalesgodscrm hmac none sgReq crm = sgProcess sgReq.body crm ∧
    handleSmartlead hmac none slReq crm' = slProcess slReq.body crm' :=
  ⟨rfl, rfl, handleSalesgodscrm_pass hmac none sgReq crm rfl,
   handleSmartlead_pass hmac none slReq crm' rfl⟩

/-! ### Claim C10 -/

theorem slPatchOf_keys (b : SlPayload) (props : Props) (k : String)
    (hk : k ∈ (slPatchOf b props).map Prod.fst) :
    k = "source_system" ∨ k = "firstname" ∨ k = "lastname" := by
  unfold slPatchOf at hk
  rw [mem_keys_buildPatch] at hk
  have hp : optTruthy (slContactInfo b).phone = false := rfl
  have hc : optTruthy (slContactInfo b).company = false := rfl
  rcases hk with h | h | h | h | h
  · exact Or.inl h
  · exact Or.inr (Or.inl h.1)
  · exact Or.inr (Or.inr h.1)
  · rw [hp] at h; simp at h
  · rw [hc] at h; simp at h

/-- C10: the Smartlead handler builds its ContactIntent with `phone` and
`company` hard-coded to null, so its PropertyPatch never carries `phone`,
`company`, or any custom foreign-id key: every key of the patch is one of
`source_system`, `firstname`, `lastname`. -/
theorem c10_smartlead_patch_bound (hmac : String → String → String)
    (secret : Option String) (req : SlRequest) (crm : Crm) :
    (slContactInfo req.body).phone = none ∧
    (slContactInfo req.body).company = none ∧
    "phone" ∉ (handleSmartlead hmac secret req crm).patch.map Prod.fst ∧
    "company" ∉ (handleSmartlead hmac secret req crm).patch.map Prod.fst ∧
    "salesgodcrm_contact_id" ∉ (handleSmartlead hmac secret req crm).patch.map Prod.fst ∧
    (((handleSmartlead hmac secret req crm).patch.map Prod.fst).all
      (fun k => k == "source_system" || k == "firstname" || k == "lastname")) = true := by
  have hcases : (handleSmartlead hmac secret req crm).patch = [] ∨
      ∃ props, (handleSmartlead hmac secret req crm).patch = slPatchOf req.body props := by
    cases hv : verifyWebhookSignature hmac secret req.signature req.rawBody
    · left
      rw [handleSmartlead_reject hmac secret req crm hv]
      rfl
    · rw [handleSmartlead_pass hmac secret req crm hv]
      rcases hEmail : slContactEmail req.body with _ | em
      · left
        rw [slProcess_missing req.body crm hEmail]
        rfl
      · rcases hSearch : searchByEmail crm em with _ | hit
        · right
          refine ⟨createdProps em (slContactInfo req.body), ?_⟩
          rw [slProcess_create req.body crm em hEmail hSearch,
              slPatchOf_createdProps req.body em]
        · right
          refine ⟨hit.snd, ?_⟩
          rw [slProcess_found req.body crm em hit hEmail hSearch]
  refine ⟨rfl, rfl, ?_, ?_, ?_, ?_⟩
  · rcases hcases with hp | ⟨props, hp⟩ <;> rw [hp]
    · simp
    · intro hmem
      rcases slPatchOf_keys req.body props "phone" hmem with h | h | h <;> simp at h
  · rcases hcases with hp | ⟨props, hp⟩ <;> rw [hp]
    · simp
    · intro hmem
      rcases slPatchOf_keys req.body props "company" hmem with h | h | h <;> simp at h
  · rcases hcases with hp | ⟨props, hp⟩ <;> rw [hp]
    · simp
    · intro hmem
      rcases slPatchOf_keys req.body props "salesgodcrm_contact_id" hmem with h | h | h <;> simp at h
  · rcases hcases with hp | ⟨props, hp⟩ <;> rw [hp]
    · rfl
    · rw [List.all_eq_true]
      intro k hk
      rcases slPatchOf_keys req.body props k hk with rfl | rfl | rfl <;> rfl

/-! ### Claim C1 -/

theorem sg_handler_no_overwrite (hmac : String → String → String)
    (secret : Option String) (req : SgRequest) (crm : Crm) (em : String)
    (hit : Nat × Props) (k : String)
    (hEmail : sgContactEmail req.body = some em)
    (hSearch : searchByEmail crm em = some hit)
    (hk : k = "firstname" ∨ k = "lastname" ∨ k = "phone" ∨ k = "company")
    (hprop : propTruthy hit.snd k = true) :
    k ∉ (handleSalesgodscrm hmac secret req crm).patch.map Prod.fst := by
  cases hv : verifyWebhookSignature hmac secret req.signature req.rawBody
  · rw [handleSalesgodscrm_reject hmac secret req crm hv]
    simp [unauthorizedResult]
  · rw [handleSalesgodscrm_pass hmac secret req crm hv,
        sgProcess_found req.body crm em hit hEmail hSearch]
    exact not_mem_sgPatchOf req.body hit.snd k hk hprop

theorem sl_handler_no_overwrite (hmac : String → String → String)
    (secret : Option String) (req : SlRequest) (crm : Crm) (em : String)
    (hit : Nat × Props) (k : String)
    (hEmail : slContactEmail req.body = some em)
    (hSearch : searchByEmail crm em = some hit)
    (hk : k = "firstname" ∨ k = "lastname" ∨ k = "phone" ∨ k = "company")
    (hprop : propTruthy hit.snd k = true) :
    k ∉ (handleSmartlead hmac secret req crm).patch.map Prod.fst := by
  cases hv : verifyWebhookSignature hmac secret req.signature req.rawBody
  · rw [handleSmartlead_reject hmac secret req crm hv]
    simp [unauthorizedResult]
  · rw [handleSmartlead_pass hmac secret req crm hv,
        slProcess_found req.body crm em hit hEmail hSearch]
    exact not_mem_slPatchOf req.body hit.snd k hk hprop

/-- C1: on either endpoint, when the inbound event's email resolves to an
existing remote contact whose `firstname` value is non-empty, the computed
PropertyPatch does not contain the key `firstname`, whatever the intent's
firstName is; likewise for `lastname`, `phone` and `company` (fill-gaps,
never-overwrite merge). -/
theorem c1_no_overwrite (hmac : String → String → String)
    (secret : Option String) (sgReq : SgRequest) (slReq : SlRequest)
    (crm crm' : Crm) (em em' : String) (hit hit' : Nat × Props)
    (hEmail : sgContactEmail sgReq.body = some em)
    (hSearch : searchByEmail crm em = some hit)
    (hEmail' : slContactEmail slReq.body = some em')
    (hSearch' : searchByEmail crm' em' = some hit') :
    (propTruthy hit.snd "firstname" = true →
      "firstname" ∉ (handleSalesgodscrm hmac secret sgReq crm).patch.map Prod.fst) ∧
    (propTruthy hit.snd "lastname" = true →
      "lastname" ∉ (handleSalesgodscrm hmac secret sgReq crm).patch.map Prod.fst) ∧
    (propTruthy hit.snd "phone" = true →
      "phone" ∉ (handleSalesgodscrm hmac secret sgReq crm).patch.map Prod.fst) ∧
    (propTruthy hit.snd "company" = true →
      "company" ∉ (handleSalesgodscrm hmac secret sgReq crm).patch.map Prod.fst) ∧
    (propTruthy hit'.snd "firstname" = true →
      "firstname" ∉ (handleSmartlead hmac secret slReq crm').patch.map Prod.fst) ∧
    (propTruthy hit'.snd "lastname" = true →
      "lastname" ∉ (handleSmartlead hmac secret slReq crm').patch.map Prod.fst) ∧
    (propTruthy hit'.snd "phone" = true →
      "phone" ∉ (handleSmartlead hmac secret slReq crm').patch.map Prod.fst) ∧
    (propTruthy hit'.snd "company" = true →
      "company" ∉ (handleSmartlead hmac secret slReq crm').patch.map Prod.fst) :=
  ⟨fun h => sg_handler_no_overwrite hmac secret sgReq crm em hit "firstname"
     hEmail hSearch (by tauto) h,
   fun h => sg_handler_no_overwrite hmac secret sgReq crm em hit "lastname"
     hEmail hSearch (by tauto) h,
   fun h => sg_handler_no_overwrite hmac secret sgReq crm em hit "phone"
     hEmail hSearch (by tauto) h,
   fun h => sg_handler_no_overwrite hmac secret sgReq crm em hit "company"
     hEmail hSearch (by tauto) h,
   fun h => sl_handler_no_overwrite hmac secret slReq crm' em' hit' "firstname"
     hEmail' hSearch' (by tauto) h,
   fun h => sl_handler_no_overwrite hmac secret slReq crm' em' hit' "lastname"
     hEmail' hSearch' (by tauto) h,
   fun h => sl_handler_no_overwrite hmac secret slReq crm' em' hit' "phone"
     hEmail' hSearch' (by tauto) h,
   fun h => sl_handler_no_overwrite hmac secret slReq crm' em' hit' "company"
     hEmail' hSearch' (by tauto) h⟩

/-- Witness for C1: a CRM holding a contact for `a@b.com` with all four
properties non-empty, and payloads on both endpoints carrying the same email
with fresh name data. -/
theorem c1_no_overwrite_witness :
    sgContactEmail sgReqW.body = some "a@b.com" ∧
    searchByEmail crmW "a@b.com" = some (7, remotePropsW) ∧
    slContactEmail slReqW.body = some "a@b.com" ∧
    ((propTruthy remotePropsW "firstname" = true →
       "firstname" ∉ (handleSalesgodscrm hmacW none sgReqW crmW).patch.map Prod.fst) ∧
     (propTruthy remotePropsW "lastname" = true →
       "lastname" ∉ (handleSalesgodscrm hmacW none sgReqW crmW).patch.map Prod.fst) ∧
     (propTruthy remotePropsW "phone" = true →
       "phone" ∉ (handleSalesgodscrm hmacW none sgReqW crmW).patch.map Prod.fst) ∧
     (propTruthy remotePropsW "company" = true →
       "company" ∉ (handleSalesgodscrm hmacW none sgReqW crmW).patch.map Prod.fst) ∧
     (propTruthy remotePropsW "firstname" = true →
       "firstname" ∉ (handleSmartlead hmacW none slReqW crmW).patch.map Prod.fst) ∧
     (propTruthy remotePropsW "lastname" = true →
       "lastname" ∉ (handleSmartlead hmacW none slReqW crmW).patch.map Prod.fst) ∧
     (propTruthy remotePropsW "phone" = true →
       "phone" ∉ (handleSmartlead hmacW none slReqW crmW).patch.map Prod.fst) ∧
     (propTruthy remotePropsW "company" = true →
       "company" ∉ (handleSmartlead hmacW none slReqW crmW).patch.map Prod.fst)) :=
  ⟨by decide, by decide, by decide,
   c1_no_overwrite hmacW none sgReqW slReqW crmW crmW "a@b.com" "a@b.com"
     (7, remotePropsW) (7, remotePropsW)
     (by decide) (by decide) (by decide) (by decide)⟩

/-! ### Claim C2 -/

theorem sg_handler_source_system (hmac : String → String → String)
    (secret : Option String) (req : SgRequest) (crm : Crm)
    (h200 : (handleSalesgodscrm hmac secret req crm).status = 200) :
    getProp (handleSalesgodscrm hmac secret req crm).patch "source_system"
      = some "SGCRM" := by
  cases hv : verifyWebhookSignature hmac secret req.signature req.rawBody
  · rw [handleSalesgodscrm_reject hmac secret req crm hv] at h200
    simp [unauthorizedResult] at h200
  · rw [handleSalesgodscrm_pass hmac secret req crm hv] at h200 ⊢
    rcases hEmail : sgContactEmail req.body with _ | em
    · rw [sgProcess_missing req.body crm hEmail] at h200
      simp [missingEmailResult] at h200
    · rcases hSearch : searchByEmail crm em with _ | hit
      · rw [sgProcess_create req.body crm em hEmail hSearch]
        exact getProp_sgCreatePatch req.body
      · rw [sgProcess_found req.body crm em hit hEmail hSearch]
        exact getProp_sgPatchOf req.body hit.snd

theorem sl_handler_source_system (hmac : String → String → String)
    (secret : Option String) (req : SlRequest) (crm : Crm)
    (h200 : (handleSmartlead hmac secret req crm).status = 200) :
    getProp (handleSmartlead hmac secret req crm).patch "source_system"
      = some "Smartlead Email Campaign" := by
  cases hv : verifyWebhookSignature hmac secret req.signature req.rawBody
  · rw [handleSmartlead_reject hmac secret req crm hv] at h200
    simp [unauthorizedResult] at h200
  · rw [handleSmartlead_pass hmac secret req crm hv] at h200 ⊢
    rcases hEmail : slContactEmail req.body with _ | em
    · rw [slProcess_missing req.body crm hEmail] at h200
      simp [missingEmailResult] at h200
    · rcases hSearch : searchByEmail crm em with _ | hit
      · rw [slProcess_create req.body crm em hEmail hSearch]
        simp [getProp, List.find?]
      · rw [slProcess_found req.body crm em hit hEmail hSearch]
        exact getProp_slPatchOf req.body hit.snd

/-- C2: every event that reaches reconciliation (a 200 run) produces a
non-empty PropertyPatch whose `source_system` entry is the static
per-endpoint label: `SGCRM` for the SalesGodCRM endpoint, `Smartlead Email
Campaign` for the Smartlead endpoint, whether or not any other field
changes. -/
theorem c2_source_system_always (hmac : String → String → String)
    (secret : Option String) (sgReq : SgRequest) (slReq : SlRequest)
    (crm crm' : Crm)
    (hsg : (handleSalesgodscrm hmac secret sgReq crm).status = 200)
    (hsl : (handleSmartlead hmac secret slReq crm').status = 200) :
    getProp (handleSalesgodscrm hmac secret sgReq crm).patch "source_system"
      = some "SGCRM" ∧
    (handleSalesgodscrm hmac secret sgReq crm).patch ≠ [] ∧
    getProp (handleSmartlead hmac secret slReq crm').patch "source_system"
      = some "Smartlead Email Campaign" ∧
    (handleSmartlead hmac secret slReq crm').patch ≠ [] := by
  have hg := sg_handler_source_system hmac secret sgReq crm hsg
  have hl := sl_handler_source_system hmac secret slReq crm' hsl
  exact ⟨hg, ne_nil_of_getProp _ _ _ hg, hl, ne_nil_of_getProp _ _ _ hl⟩

/-- Witness for C2: both handlers return 200 on a fresh CRM with no secret
configured, and the patches carry the endpoint labels. -/
theorem c2_source_system_always_witness :
    (handleSalesgodscrm hmacW none sgReqW crmEmptyW).status = 200 ∧
    (handleSmartlead hmacW none slReqW crmEmptyW).status = 200 ∧
    (getProp (handleSalesgodscrm hmacW none sgReqW crmEmptyW).patch "source_system"
       = some "SGCRM" ∧
     (handleSalesgodscrm hmacW none sgReqW crmEmptyW).patch ≠ [] ∧
     getProp (handleSmartlead hmacW none slReqW crmEmptyW).patch "source_system"
       = some "Smartlead Email Campaign" ∧
     (handleSmartlead hmacW none slReqW crmEmptyW).patch ≠ []) :=
  ⟨by decide, by decide,
   c2_source_system_always hmacW none sgReqW slReqW crmEmptyW crmEmptyW
     (by decide) (by decide)⟩

/-! ### Claim C3 -/

/-- Counterexample to C3 as stated: on a fresh CRM, a SalesGodCRM payload
with a previously-unseen email and non-empty firstName yields action=created,
yet the PropertyPatch does not contain `firstname` — the field was written by
the create call, so the fill-gaps merge sees it as already populated. -/
theorem c3_counterexample :
    (handleSalesgodscrm hmacW none sgReqW crmEmptyW).action = some "created" ∧
    optTruthy (sgContactInfo sgReqW.body).firstName = true ∧
    "firstname" ∉
      (handleSalesgodscrm hmacW none sgReqW crmEmptyW).patch.map Prod.fst := by
  decide

/-- C3 (amended): for a valid intent with a previously-unseen email, the
pipeline yields action=created and a PropertyPatch containing `source_system`
(and the foreign id when present) but none of the four contact fields; the
intent's non-empty fields travel in the create call instead of the patch. -/
theorem c3_amended (hmac : String → String → String) (secret : Option String)
    (req : SgRequest) (crm : Crm) (em : String)
    (hGate : verifyWebhookSignature hmac secret req.signature req.rawBody = true)
    (hEmail : sgContactEmail req.body = some em)
    (hSearch : searchByEmail crm em = none) :
    (handleSalesgodscrm hmac secret req crm).action = some "created" ∧
    getProp (handleSalesgodscrm hmac secret req crm).patch "source_system"
      = some "SGCRM" ∧
    CrmCall.create (createdProps em (sgContactInfo req.body))
      ∈ (handleSalesgodscrm hmac secret req crm).calls ∧
    "firstname" ∉ (handleSalesgodscrm hmac secret req crm).patch.map Prod.fst ∧
    "lastname" ∉ (handleSalesgodscrm hmac secret req crm).patch.map Prod.fst ∧
    "phone" ∉ (handleSalesgodscrm hmac secret req crm).patch.map Prod.fst ∧
    "company" ∉ (handleSalesgodscrm hmac secret req crm).patch.map Prod.fst := by
  rw [handleSalesgodscrm_pass hmac secret req crm hGate,
      sgProcess_create req.body crm em hEmail hSearch]
  refine ⟨rfl, getProp_sgCreatePatch req.body, by simp, ?_, ?_, ?_, ?_⟩ <;>
  · show _ ∉ (sgCreatePatch req.body).map Prod.fst
    unfold sgCreatePatch
    cases optTruthy req.body.id <;> simp

/-- Witness for C3 (amended): the concrete fresh-CRM run. -/
theorem c3_amended_witness :
    verifyWebhookSignature hmacW none sgReqW.signature sgReqW.rawBody = true ∧
    sgContactEmail sgReqW.body = some "a@b.com" ∧
    searchByEmail crmEmptyW "a@b.com" = none ∧
    ((handleSalesgodscrm hmacW none sgReqW crmEmptyW).action = some "created" ∧
     getProp (handleSalesgodscrm hmacW none sgReqW crmEmptyW).patch "source_system"
       = some "SGCRM" ∧
     CrmCall.create (createdProps "a@b.com" (sgContactInfo sgReqW.body))
       ∈ (handleSalesgodscrm hmacW none sgReqW crmEmptyW).calls ∧
     "firstname" ∉ (handleSalesgodscrm hmacW none sgReqW crmEmptyW).patch.map Prod.fst ∧
     "lastname" ∉ (handleSalesgodscrm hmacW none sgReqW crmEmptyW).patch.map Prod.fst ∧
     "phone" ∉ (handleSalesgodscrm hmacW none sgReqW crmEmptyW).patch.map Prod.fst ∧
     "company" ∉ (handleSalesgodscrm hmacW none sgReqW crmEmptyW).patch.map Prod.fst) :=
  ⟨by decide, by decide, by decide,
   c3_amended hmacW none sgReqW crmEmptyW "a@b.com"
     (by decide) (by decide) (by decide)⟩

/-! ### Claim C4 -/

/-- Counterexample to C4 as stated: the audit record's `action` field is
`created_new` (and `updated_existing` on the other branch), not a member of
the claimed set containing only `created` and `updated` — those shorter
labels appear only in the top-level response `action` field. -/
theorem c4_counterexample :
    (handleSalesgodscrm hmacW none sgReqW crmEmptyW).audit.map AuditRecord.action
      = some "created_new" ∧
    (handleSalesgodscrm hmacW none sgReqW crmEmptyW).action = some "created" ∧
    "created_new" ≠ "created" ∧ "created_new" ≠ "updated" := by
  decide

/-- C4 (amended): on either endpoint, for a gate-passing request whose email
resolves, the audit record's action is `created_new` exactly when the contact
search finds nothing (the contact is newly created) and `updated_existing`
exactly when the search finds an existing contact, paired with the
response-level action `created` resp. `updated`; the success response carries
the remote contact id, the action and the audit record. -/
theorem c4_amended (hmac : String → String → String) (secret : Option String)
    (sgReq : SgRequest) (slReq : SlRequest) (crm crm' : Crm) (em em' : String)
    (hGsg : verifyWebhookSignature hmac secret sgReq.signature sgReq.rawBody = true)
    (hGsl : verifyWebhookSignature hmac secret slReq.signature slReq.rawBody = true)
    (hEsg : sgContactEmail sgReq.body = some em)
    (hEsl : slContactEmail slReq.body = some em') :
    (searchByEmail crm em = none →
      (handleSalesgodscrm hmac secret sgReq crm).action = some "created" ∧
      (handleSalesgodscrm hmac secret sgReq crm).audit.map AuditRecord.action
        = some "created_new") ∧
    (∀ hit : Nat × Props, searchByEmail crm em = some hit →
      (handleSalesgodscrm hmac secret sgReq crm).action = some "updated" ∧
      (handleSalesgodscrm hmac secret sgReq crm).audit.map AuditRecord.action
        = some "updated_existing") ∧
    ((handleSalesgodscrm hmac secret sgReq crm).hubspotContactId.isSome = true ∧
     (handleSalesgodscrm hmac secret sgReq crm).audit.isSome = true ∧
     (handleSalesgodscrm hmac secret sgReq crm).success = true) ∧
    (searchByEmail crm' em' = none →
      (handleSmartlead hmac secret slReq crm').action = some "created" ∧
      (handleSmartlead hmac secret slReq crm').audit.map AuditRecord.action
        = some "created_new") ∧
    (∀ hit : Nat × Props, searchByEmail crm' em' = some hit →
      (handleSmartlead hmac secret slReq crm').action = some "updated" ∧
      (handleSmartlead hmac secret slReq crm').audit.map AuditRecord.action
        = some "updated_existing") ∧
    ((handleSmartlead hmac secret slReq crm').hubspotContactId.isSome = true ∧
     (handleSmartlead hmac secret slReq crm').audit.isSome = true ∧
     (handleSmartlead hmac secret slReq crm').success = true) := by
  refine ⟨?_, ?_, ?_, ?_, ?_, ?_⟩
  · intro hS
    rw [handleSalesgodscrm_pass hmac secret sgReq crm hGsg,
        sgProcess_create sgReq.body crm em hEsg hS]
    exact ⟨rfl, rfl⟩
  · intro hit hS
    rw [handleSalesgodscrm_pass hmac secret sgReq crm hGsg,
        sgProcess_found sgReq.body crm em hit hEsg hS]
    exact ⟨rfl, rfl⟩
  · rw [handleSalesgodscrm_pass hmac secret sgReq crm hGsg]
    rcases hS : searchByEmail crm em with _ | hit
    · rw [sgProcess_create sgReq.body crm em hEsg hS]
      exact ⟨rfl, rfl, rfl⟩
    · rw [sgProcess_found sgReq.body crm em hit hEsg hS]
      exact ⟨rfl, rfl, rfl⟩
  · intro hS
    rw [handleSmartlead_pass hmac secret slReq crm' hGsl,
        slProcess_create slReq.body crm' em' hEsl hS]
    exact ⟨rfl, rfl⟩
  · intro hit hS
    rw [handleSmartlead_pass hmac secret slReq crm' hGsl,
        slProcess_found slReq.body crm' em' hit hEsl hS]
    exact ⟨rfl, rfl⟩
  · rw [handleSmartlead_pass hmac secret slReq crm' hGsl]
    rcases hS : searchByEmail crm' em' with _ | hit
    · rw [slProcess_create slReq.body crm' em' hEsl hS]
      exact ⟨rfl, rfl, rfl⟩
    · rw [slProcess_found slReq.body crm' em' hit hEsl hS]
      exact ⟨rfl, rfl, rfl⟩

/-- Witness for C4 (amended), exercising both branches on both endpoints:
the created run on an empty CRM and the updated run on a CRM that already
holds the contact. -/
theorem c4_amended_witness :
    verifyWebhookSignature hmacW none sgReqW.signature sgReqW.rawBody = true ∧
    verifyWebhookSignature hmacW none slReqW.signature slReqW.rawBody = true ∧
    sgContactEmail sgReqW.body = some "a@b.com" ∧
    slContactEmail slReqW.body = some "a@b.com" ∧
    searchByEmail crmEmptyW "a@b.com" = none ∧
    searchByEmail crmW "a@b.com" = some (7, remotePropsW) ∧
    ((handleSalesgodscrm hmacW none sgReqW crmEmptyW).action = some "created" ∧
     (handleSalesgodscrm hmacW none sgReqW crmEmptyW).audit.map AuditRecord.action
       = some "created_new") ∧
    ((handleSalesgodscrm hmacW none sgReqW crmW).action = some "updated" ∧
     (handleSalesgodscrm hmacW none sgReqW crmW).audit.map AuditRecord.action
       = some "updated_existing") ∧
    ((handleSmartlead hmacW none slReqW crmEmptyW).action = some "created" ∧
     (handleSmartlead hmacW none slReqW crmEmptyW).audit.map AuditRecord.action
       = some "created_new") ∧
    ((handleSmartlead hmacW none slReqW crmW).action = some "updated" ∧
     (handleSmartlead hmacW none slReqW crmW).audit.map AuditRecord.action
       = some "updated_existing") ∧
    ((handleSalesgodscrm hmacW none sgReqW crmEmptyW).hubspotContactId.isSome = true ∧
     (handleSalesgodscrm hmacW none sgReqW crmEmptyW).audit.isSome = true ∧
     (handleSalesgodscrm hmacW none sgReqW crmEmptyW).success = true) ∧
    ((handleSmartlead hmacW none slReqW crmW).hubspotContactId.isSome = true ∧
     (handleSmartlead hmacW none slReqW crmW).audit.isSome = true ∧
     (handleSmartlead hmacW none slReqW crmW).success = true) :=
  ⟨by decide, by decide, by decide, by decide, by decide, by decide,
   (c4_amended hmacW none sgReqW slReqW crmEmptyW crmW "a@b.com" "a@b.com"
      (by decide) (by decide) (by decide) (by decide)).1 (by decide),
   (c4_amended hmacW none sgReqW slReqW crmW crmEmptyW "a@b.com" "a@b.com"
      (by decide) (by decide) (by decide) (by decide)).2.1 (7, remotePropsW) (by decide),
   (c4_amended hmacW none sgReqW slReqW crmW crmEmptyW "a@b.com" "a@b.com"
      (by decide) (by decide) (by decide) (by decide)).2.2.2.1 (by decide),
   (c4_amended hmacW none sgReqW slReqW crmEmptyW crmW "a@b.com" "a@b.com"
      (by decide) (by decide) (by decide) (by decide)).2.2.2.2.1 (7, remotePropsW) (by decide),
   (c4_amended hmacW none sgReqW slReqW crmEmptyW crmW "a@b.com" "a@b.com"
      (by decide) (by decide) (by decide) (by decide)).2.2.1,
   (c4_amended hmacW none sgReqW slReqW crmEmptyW crmW "a@b.com" "a@b.com"
      (by decide) (by decide) (by decide) (by decide)).2.2.2.2.2⟩

/-! ### Claim C6 -/

theorem hmacConstW_ne_empty (k p : String) : hmacConstW k p ≠ "" :=
  fun h => (by decide : ("aa" : String) ≠ "") h

theorem verifyWebhookSignature_some (hmac : String → String → String)
    (sec : String) (sig : Option String) (payload : String) (hsec : sec ≠ "") :
    verifyWebhookSignature hmac (some sec) sig payload =
      (if optTruthy sig then hmac sec payload == sig.getD "" else false) := by
  unfold verifyWebhookSignature
  have hsec' : optTruthy (some sec) = true := by
    rw [optTruthy_some]; exact bne_iff_ne.mpr hsec
  rw [hsec']
  cases hsig : optTruthy sig <;> simp [hsig]

theorem verify_iff_of_secret (hmac : String → String → String) (sec : String)
    (sig : Option String) (payload : String)
    (hsec : sec ≠ "") (hdig : ∀ p, hmac sec p ≠ "") :
    (verifyWebhookSignature hmac (some sec) sig payload = true
      ↔ sig = some (hmac sec payload)) := by
  rw [verifyWebhookSignature_some hmac sec sig payload hsec]
  cases sig with
  | none => simp [optTruthy]
  | some s =>
    by_cases hs : s = ""
    · subst hs
      have h0 : optTruthy (some "") = false := rfl
      rw [h0]
      constructor
      · intro h
        simp at h
      · intro h
        exact absurd (by simpa using h.symm) (hdig payload)
    · have hs' : optTruthy (some s) = true := by
        rw [optTruthy_some]; exact bne_iff_ne.mpr hs
      rw [hs']
      constructor
      · intro h
        have h' : hmac sec payload = s := by simpa using h
        rw [h']
      · intro h
        have h' : s = hmac sec payload := by simpa using h
        simp [h']

/-- C6: with a secret configured, the signature gate accepts a request iff
its `x-webhook-signature` header equals the hex HMAC-SHA256 of the
serialized body under that secret (hex digests are never empty, hence the
digest hypothesis); a request whose header is missing or differs is rejected
with HTTP 401 and triggers zero CRM calls, on either endpoint. -/
theorem c6_signature_gate (hmac : String → String → String) (sec : String)
    (sig : Option String) (raw : String)
    (sgReq : SgRequest) (slReq : SlRequest) (crm crm' : Crm)
    (hsec : sec ≠ "") (hdig : ∀ p, hmac sec p ≠ "") :
    (verifyWebhookSignature hmac (some sec) sig raw = true
      ↔ sig = some (hmac sec raw)) ∧
    (sgReq.signature ≠ some (hmac sec sgReq.rawBody) →
      (handleSalesgodscrm hmac (some sec) sgReq crm).status = 401 ∧
      (handleSalesgodscrm hmac (some sec) sgReq crm).calls = []) ∧
    (slReq.signature ≠ some (hmac sec slReq.rawBody) →
      (handleSmartlead hmac (some sec) slReq crm').status = 401 ∧
      (handleSmartlead hmac (some sec) slReq crm').calls = []) := by
  refine ⟨verify_iff_of_secret hmac sec sig raw hsec hdig, ?_, ?_⟩
  · intro hne
    have hvf : verifyWebhookSignature hmac (some sec) sgReq.signature
        sgReq.rawBody = false := by
      cases hb : verifyWebhookSignature hmac (some sec) sgReq.signature sgReq.rawBody
      · rfl
      · exact absurd
          ((verify_iff_of_secret hmac sec sgReq.signature sgReq.rawBody hsec hdig).mp hb)
          hne
    rw [handleSalesgodscrm_reject hmac (some sec) sgReq crm hvf]
    exact ⟨rfl, rfl⟩
  · intro hne
    have hvf : verifyWebhookSignature hmac (some sec) slReq.signature
        slReq.rawBody = false := by
      cases hb : verifyWebhookSignature hmac (some sec) slReq.signature slReq.rawBody
      · rfl
      · exact absurd
          ((verify_iff_of_secret hmac sec slReq.signature slReq.rawBody hsec hdig).mp hb)
          hne
    rw [handleSmartlead_reject hmac (some sec) slReq crm' hvf]
    exact ⟨rfl, rfl⟩

/-- Witness for C6: secret `s3cret`, a constant non-empty digest function,
and requests whose signature header is `bad`. -/
theorem c6_signature_gate_witness :
    "s3cret" ≠ "" ∧
    (∀ p, hmacConstW "s3cret" p ≠ "") ∧
    ((verifyWebhookSignature hmacConstW (some "s3cret") (some "bad") "{}" = true
       ↔ (some "bad" : Option String) = some (hmacConstW "s3cret" "{}")) ∧
     (sgReqBadSigW.signature ≠ some (hmacConstW "s3cret" sgReqBadSigW.rawBody) →
       (handleSalesgodscrm hmacConstW (some "s3cret") sgReqBadSigW crmW).status = 401 ∧
       (handleSalesgodscrm hmacConstW (some "s3cret") sgReqBadSigW crmW).calls = []) ∧
     (slReqBadSigW.signature ≠ some (hmacConstW "s3cret" slReqBadSigW.rawBody) →
       (handleSmartlead hmacConstW (some "s3cret") slReqBadSigW crmW).status = 401 ∧
       (handleSmartlead hmacConstW (some "s3cret") slReqBadSigW crmW).calls = [])) :=
  ⟨by decide, fun p => hmacConstW_ne_empty "s3cret" p,
   c6_signature_gate hmacConstW "s3cret" (some "bad") "{}" sgReqBadSigW slReqBadSigW
     crmW crmW (by decide) (fun p => hmacConstW_ne_empty "s3cret" p)⟩

/-! ### Claim C8 -/

theorem jsStringOrNull_eq (t : String) :
    jsStringOrNull t = if t = "" then none else some t := by
  unfold jsStringOrNull
  by_cases h : t = "" <;> simp [h]

/-- Counterexample to C8 as stated: for the present full name `" Jane"` the
first space-separated token is the empty string, but the code maps it to
null (`nameParts[0] || null`) instead of making it the firstName; the claim
only licenses the null conversion for an empty remainder. -/
theorem c8_counterexample :
    splitToName (some " Jane") = (none, some "Jane") ∧
    (jsSplitSpace " Jane").headD "x" = "" ∧
    (splitToName (some " Jane")).fst ≠ some ((jsSplitSpace " Jane").headD "x") := by
  decide

/-- C8 (amended): for every present (non-empty) full-name string, the first
space-separated token becomes firstName and the remaining tokens joined by a
single space become lastName, with an empty first token (name starting with
a space) and an empty remainder each becoming null rather than an empty
field; in particular `Jane Mary Doe` gives (`Jane`, `Mary Doe`) and `Solo`
gives (`Solo`, null). -/
theorem c8_amended (s : String) (hs : s ≠ "") :
    (splitToName (some s)).fst =
      (if (jsSplitSpace s).headD "" = "" then none
       else some ((jsSplitSpace s).headD "")) ∧
    (splitToName (some s)).snd =
      (if jsJoinSpace ((jsSplitSpace s).drop 1) = "" then none
       else some (jsJoinSpace ((jsSplitSpace s).drop 1))) ∧
    splitToName (some "Jane Mary Doe") = (some "Jane", some "Mary Doe") ∧
    splitToName (some "Solo") = (some "Solo", none) := by
  have hbeq : (s == "") = false := beq_eq_false_iff_ne.mpr hs
  refine ⟨?_, ?_, by decide, by decide⟩
  · simp only [splitToName, hbeq, Bool.false_eq_true, if_false]
    cases hparts : jsSplitSpace s with
    | nil => simp [jsStringOrNull]
    | cons t rest => simp [jsStringOrNull_eq]
  · simp only [splitToName, hbeq, Bool.false_eq_true, if_false]
    exact jsStringOrNull_eq _

/-- Witness for C8 (amended) at the spec's own example. -/
theorem c8_amended_witness :
    "Jane Mary Doe" ≠ "" ∧
    ((splitToName (some "Jane Mary Doe")).fst =
       (if (jsSplitSpace "Jane Mary Doe").headD "" = "" then none
        else some ((jsSplitSpace "Jane Mary Doe").headD "")) ∧
     (splitToName (some "Jane Mary Doe")).snd =
       (if jsJoinSpace ((jsSplitSpace "Jane Mary Doe").drop 1) = "" then none
        else some (jsJoinSpace ((jsSplitSpace "Jane Mary Doe").drop 1))) ∧
     splitToName (some "Jane Mary Doe") = (some "Jane", some "Mary Doe") ∧
     splitToName (some "Solo") = (some "Solo", none)) :=
  ⟨by decide, c8_amended "Jane Mary Doe" (by decide)⟩

/-! ### Claim C9 -/

/-- Counterexample to C9 as stated: sending the identical fresh-email payload
twice gives created then updated, but the second patch's key set equals the
first's, so it is not a strict subset — the first patch already excluded the
intent fields, which travelled in the create call. -/
theorem c9_counterexample :
    (handleSalesgodscrm hmacW none sgReqW crmEmptyW).action = some "created" ∧
    (handleSalesgodscrm hmacW none sgReqW
        (handleSalesgodscrm hmacW none sgReqW crmEmptyW).crm).action = some "updated" ∧
    (handleSalesgodscrm hmacW none sgReqW
        (handleSalesgodscrm hmacW none sgReqW crmEmptyW).crm).patch.map Prod.fst
      = (handleSalesgodscrm hmacW none sgReqW crmEmptyW).patch.map Prod.fst ∧
    ¬((∀ k ∈ (handleSalesgodscrm hmacW none sgReqW
          (handleSalesgodscrm hmacW none sgReqW crmEmptyW).crm).patch.map Prod.fst,
        k ∈ (handleSalesgodscrm hmacW none sgReqW crmEmptyW).patch.map Prod.fst) ∧
      (∃ k ∈ (handleSalesgodscrm hmacW none sgReqW crmEmptyW).patch.map Prod.fst,
        k ∉ (handleSalesgodscrm hmacW none sgReqW
          (handleSalesgodscrm hmacW none sgReqW crmEmptyW).crm).patch.map Prod.fst)) := by
  decide

/-- C9 (amended): sending the identical valid payload twice sequentially for
a previously-unseen email yields action=created on the first call and
action=updated on the second, and the second call's PropertyPatch equals the
first call's — the key set is a subset, but never a strict one. -/
theorem c9_amended (hmac : String → String → String) (secret : Option String)
    (req : SgRequest) (crm : Crm) (em : String)
    (hGate : verifyWebhookSignature hmac secret req.signature req.rawBody = true)
    (hEmail : sgContactEmail req.body = some em)
    (hSearch : searchByEmail crm em = none) :
    (handleSalesgodscrm hmac secret req crm).action = some "created" ∧
    (handleSalesgodscrm hmac secret req
        (handleSalesgodscrm hmac secret req crm).crm).action = some "updated" ∧
    (handleSalesgodscrm hmac secret req
        (handleSalesgodscrm hmac secret req crm).crm).patch
      = (handleSalesgodscrm hmac secret req crm).patch := by
  have h1 := handleSalesgodscrm_pass hmac secret req crm hGate
  rw [sgProcess_create req.body crm em hEmail hSearch] at h1
  rw [h1]
  dsimp only
  refine ⟨rfl, ?_, ?_⟩
  · rw [handleSalesgodscrm_pass hmac secret req _ hGate,
        sgProcess_found req.body _ em _ hEmail (searchByEmail_after_create req.body crm em)]
  · rw [handleSalesgodscrm_pass hmac secret req _ hGate,
        sgProcess_found req.body _ em _ hEmail (searchByEmail_after_create req.body crm em)]
    dsimp only
    exact sgPatchOf_stored req.body em

/-- Witness for C9 (amended): the concrete two sequential runs on a fresh
CRM. -/
theorem c9_amended_witness :
    verifyWebhookSignature hmacW none sgReqW.signature sgReqW.rawBody = true ∧
    sgContactEmail sgReqW.body = some "a@b.com" ∧
    searchByEmail crmEmptyW "a@b.com" = none ∧
    ((handleSalesgodscrm hmacW none sgReqW crmEmptyW).action = some "created" ∧
     (handleSalesgodscrm hmacW none sgReqW
         (handleSalesgodscrm hmacW none sgReqW crmEmptyW).crm).action = some "updated" ∧
     (handleSalesgodscrm hmacW none sgReqW
         (handleSalesgodscrm hmacW none sgReqW crmEmptyW).crm).patch
       = (handleSalesgodscrm hmacW none sgReqW crmEmptyW).patch) :=
  ⟨by decide, by decide, by decide,
   c9_amended hmacW none sgReqW crmEmptyW "a@b.com"
     (by decide) (by decide) (by decide)⟩

/-- Witness for C7 at concrete inputs. -/
theorem c7_fail_open_witness :
    verifyWebhookSignature hmacW none (some "anything") "{}" = true ∧
    verifyWebhookSignature hmacW (some "") (some "anything") "{}" = true ∧
    handleSalesgodscrm hmacW none sgReqW crmW = sgProcess sgReqW.body crmW ∧
    handleSmartlead hmacW none slReqW crmW = slProcess slReqW.body crmW :=
  c7_fail_open hmacW (some "anything") "{}" sgReqW slReqW crmW crmW

/-- Witness for C10 at concrete inputs. -/
theorem c10_smartlead_patch_bound_witness :
    (slContactInfo slReqW.body).phone = none ∧
    (slContactInfo slReqW.body).company = none ∧
    "phone" ∉ (handleSmartlead hmacW none slReqW crmW).patch.map Prod.fst ∧
    "company" ∉ (handleSmartlead hmacW none slReqW crmW).patch.map Prod.fst ∧
    "salesgodcrm_contact_id" ∉ (handleSmartlead hmacW none slReqW crmW).patch.map Prod.fst ∧
    (((handleSmartlead hmacW none slReqW crmW).patch.map Prod.fst).all
      (fun k => k == "source_system" || k == "firstname" || k == "lastname")) = true :=
  c10_smartlead_patch_bound hmacW none slReqW crmW
